import Mathlib

/-!
Shallow embedding of the WW-tep subscription/trading-signal services.

The database (SQL migration `part_004`) is modelled as lists of rows, one
list per table; timestamps are abstract `Nat` instants (milliseconds since
the epoch) and the monetary columns are `Nat` dollars (the catalogue prices
0/99/199/499 are integral).  Supabase client calls are modelled as pure
functions on this state.  Environmental failures of the managed client
(network errors, RLS denials, foreign-key violations) are abstracted as
explicit `Bool`/`Option String` oracle arguments; the data-dependent
constraints that the TypeScript layer can actually violate — the
`plan_type` CHECK and the `UNIQUE(user_id, signal_id)` and `UNIQUE(email)`
constraints — are modelled from the schema.  `.maybeSingle()` follows the
supabase-js contract: `none` for zero rows, the row for one row, and an
error for two or more rows.
-/

/-- A row of the `users` table (initial schema of the SQL migration,
which still carries `password_hash`). -/
structure UserRow where
  id : String
  email : String
  password_hash : String
  first_name : String
  last_name : String
  role : String
  is_active : Bool
  email_verified : Bool
deriving DecidableEq, Repr, Inhabited

/-- A row of the `user_profiles` table (the columns the services write). -/
structure ProfileRow where
  user_id : String
  unique_id : String
  account_type : String
  risk_tolerance : String
  setup_complete : Bool
  timezone : String
deriving DecidableEq, Repr, Inhabited

/-- A row of the `user_subscriptions` table. -/
structure SubscriptionRow where
  user_id : String
  plan_type : String
  plan_name : String
  price : Nat
  period : String
  status : String
  features : List String
  started_at : Option Nat
  expires_at : Option Nat
deriving DecidableEq, Repr, Inhabited

/-- A row of the `trading_signals` table; the `decimal(20,8)` price columns
are abstract integers (scaled fixed-point), never computed with here. -/
structure SignalRow where
  id : String
  signal_type : String
  symbol : String
  currency_pair : Option String
  timeframe : String
  direction : String
  entry_price : Int
  stop_loss : Int
  take_profit : String
  pips_at_risk : Option String
  confidence : Option Nat
  analysis : Option String
  ict_concepts : List String
  status : String
  created_by : Option String
  created_at : Nat
  expires_at : Option Nat
deriving DecidableEq, Repr, Inhabited

/-- A row of the `user_signal_access` table. -/
structure SignalAccessRow where
  user_id : String
  signal_id : String
  viewed_at : Nat
deriving DecidableEq, Repr, Inhabited

/-- A row of the `purchases` table. -/
structure PurchaseRow where
  id : String
  user_id : String
  plan_type : String
  plan_name : String
  amount : Nat
  currency : String
  payment_method : String
  payment_status : String
  transaction_id : Option String
  payment_details : Option String
  created_at : Nat
  completed_at : Option Nat
deriving DecidableEq, Repr, Inhabited

/-- A row of the `admin_notifications` table.  The `metadata` jsonb object
built by the purchase trigger is flattened into its five keys. -/
structure AdminNotificationRow where
  notification_type : String
  title : String
  message : String
  related_user_id : String
  related_purchase_id : String
  metadata_user_email : String
  metadata_user_name : String
  metadata_plan_name : String
  metadata_amount : Nat
  metadata_payment_method : String
deriving DecidableEq, Repr, Inhabited

/-- The mutable database state: one list per table the services touch. -/
structure DB where
  users : List UserRow
  user_profiles : List ProfileRow
  user_subscriptions : List SubscriptionRow
  trading_signals : List SignalRow
  user_signal_access : List SignalAccessRow
  purchases : List PurchaseRow
  admin_notifications : List AdminNotificationRow
deriving DecidableEq, Repr, Inhabited

/-- An empty database, the state before any service call. -/
def DB.empty : DB := ⟨[], [], [], [], [], [], []⟩

/-- Result shape of a plan lookup (`getPlanDetails`). -/
structure PlanDetails where
  name : String
  price : Nat
  period : String
  features : List String
deriving DecidableEq, Repr, Inhabited

/-- The `kickstarter` entry of the plan catalogue, shared verbatim by the
three `getPlanDetails` copies. -/
def plansKickstarter : PlanDetails :=
  { name := "Kickstarter", price := 0, period := "month",
    features :=
      ["Risk management plan for 1 month",
       "Trading signals for 1 week",
       "Standard risk management calculator",
       "Phase tracking dashboard",
       "3 prop firm rule analyzer"] }

/-- The `starter` entry of the plan catalogue. -/
def plansStarter : PlanDetails :=
  { name := "Starter", price := 99, period := "month",
    features :=
      ["Risk management plan for 1 month",
       "Trading signals for 1 month",
       "Standard risk management calculator",
       "Phase tracking dashboard",
       "5 prop firm rule analyzer",
       "Email support",
       "Auto lot size calculator"] }

/-- The `pro` entry of the plan catalogue. -/
def plansPro : PlanDetails :=
  { name := "Pro", price := 199, period := "month",
    features :=
      ["Risk management plan for 1 month",
       "Trading signals for 1 month",
       "Standard risk management calculator",
       "Phase tracking dashboard",
       "15 prop firm rule analyzer",
       "Priority chat and email support",
       "Auto lot size calculator",
       "Access to private community",
       "Multi account tracker",
       "Advanced trading journal",
       "Backtesting tools"] }

/-- The `enterprise` entry of the plan catalogue. -/
def plansEnterprise : PlanDetails :=
  { name := "Enterprise", price := 499, period := "3 months",
    features :=
      ["Risk management plan for 3 months",
       "Trading signals for 3 months",
       "Standard risk management calculator",
       "Phase tracking dashboard",
       "15 prop firm rule analyzer",
       "24/7 priority support",
       "Auto lot size calculator",
       "Access to private community",
       "Multi account tracker",
       "Advanced trading journal",
       "Professional backtesting suite",
       "Chart analysis tools"] }

/-- Value of the JavaScript expression `plans[planType] || plans.starter`:
either one of the four plan records (own properties, or the Starter
fallback when the lookup is falsy), or — because a string-keyed lookup on
an object literal walks the prototype chain — the truthy member inherited
from `Object.prototype` under that key, which is not a plan at all. -/
inductive PlanLookup where
  | plan : PlanDetails → PlanLookup
  | protoMember : String → PlanLookup
deriving DecidableEq, Repr, Inhabited

/-- Own property names of `Object.prototype` (ECMAScript, including the
Annex B accessors), every one of them bound to a truthy value: these keys
make `plans[planType]` produce the inherited member, so the `||` fallback
never fires for them. -/
def objectPrototypeKeys : List String :=
  ["constructor", "hasOwnProperty", "isPrototypeOf", "propertyIsEnumerable",
   "toLocaleString", "toString", "valueOf",
   "__defineGetter__", "__defineSetter__", "__lookupGetter__",
   "__lookupSetter__", "__proto__"]

/-- Plan lookup of `purchaseService` (`plans[planType] || plans.starter`):
the four own keys yield their records, an `Object.prototype` key yields
the inherited member, every other string yields `undefined` and falls
back to the Starter plan. -/
def purchaseService.getPlanDetails (planType : String) : PlanLookup :=
  match planType with
  | "kickstarter" => PlanLookup.plan plansKickstarter
  | "starter" => PlanLookup.plan plansStarter
  | "pro" => PlanLookup.plan plansPro
  | "enterprise" => PlanLookup.plan plansEnterprise
  | _ =>
      if objectPrototypeKeys.contains planType then PlanLookup.protoMember planType
      else PlanLookup.plan plansStarter

/-- Plan lookup of the legacy auth service (`src/services/supabaseAuth.ts`),
textually identical to the `purchaseService` copy. -/
def authService.getPlanDetails (planType : String) : PlanLookup :=
  match planType with
  | "kickstarter" => PlanLookup.plan plansKickstarter
  | "starter" => PlanLookup.plan plansStarter
  | "pro" => PlanLookup.plan plansPro
  | "enterprise" => PlanLookup.plan plansEnterprise
  | _ =>
      if objectPrototypeKeys.contains planType then PlanLookup.protoMember planType
      else PlanLookup.plan plansStarter

/-- Plan lookup of the provider-delegating auth service (`part_002`),
textually identical to the `purchaseService` copy. -/
def authServiceV2.getPlanDetails (planType : String) : PlanLookup :=
  match planType with
  | "kickstarter" => PlanLookup.plan plansKickstarter
  | "starter" => PlanLookup.plan plansStarter
  | "pro" => PlanLookup.plan plansPro
  | "enterprise" => PlanLookup.plan plansEnterprise
  | _ =>
      if objectPrototypeKeys.contains planType then PlanLookup.protoMember planType
      else PlanLookup.plan plansStarter

/-- Whether a string passes the `user_subscriptions.plan_type` CHECK
constraint of the schema. -/
def validPlanType (pt : String) : Bool :=
  pt == "kickstarter" || pt == "starter" || pt == "pro" || pt == "enterprise"

/-- Semantics of a supabase-js `.maybeSingle()` call on the rows selected by
the preceding filters: `none` for zero rows, the row for exactly one, and a
PGRST "multiple rows" error otherwise. -/
def maybeSingle {α : Type} (rows : List α) : Except String (Option α) :=
  match rows with
  | [] => Except.ok none
  | [r] => Except.ok (some r)
  | _ => Except.error "JSON object requested, multiple rows returned"

/-- Rows of `user_subscriptions` selected by
`.eq(user_id, uid).eq(status, active)`. -/
def activeSubsOf (db : DB) (uid : String) : List SubscriptionRow :=
  db.user_subscriptions.filter (fun s => s.user_id == uid && s.status == "active")

/-- Substring test, modelling JavaScript `String.prototype.includes`. -/
def strIncludes (hay needle : String) : Bool :=
  (List.range (hay.length + 1)).any (fun i => needle.isPrefixOf (hay.drop i))

/-- Insert one signal into a list kept sorted by `created_at` descending. -/
def insertByCreatedDesc (s : SignalRow) : List SignalRow → List SignalRow
  | [] => [s]
  | t :: ts =>
      if t.created_at ≤ s.created_at then s :: t :: ts
      else t :: insertByCreatedDesc s ts

/-- Ordering applied by `.order(created_at, { ascending: false })`. -/
def sortByCreatedDesc : List SignalRow → List SignalRow
  | [] => []
  | s :: ss => insertByCreatedDesc s (sortByCreatedDesc ss)

/-- Result shape of `getActiveSignals` / `getSignalsByType`. -/
structure SignalsResult where
  success : Bool
  signals : Option (List SignalRow)
  error : Option String
deriving DecidableEq, Repr, Inhabited

/-- Result shape of `checkUserSignalAccess`. -/
structure AccessResult where
  success : Bool
  hasAccess : Bool
  message : Option String
  error : Option String
  subscription : Option SubscriptionRow
deriving DecidableEq, Repr, Inhabited

/-- Result shape of the services that report only success or an error. -/
structure SimpleResult where
  success : Bool
  error : Option String
deriving DecidableEq, Repr, Inhabited

/-- Embeds `tradingSignalService.getActiveSignals` (`part_003` lines
54-84).  When a `userId` is supplied the service first looks up an active
subscription with `.maybeSingle()`, binding only `data` — a multi-row
error therefore also yields `data = null` — and refuses with
"No active subscription" when `data` is null; otherwise it returns the
active signals most recent first. -/
def getActiveSignals (db : DB) (userId : Option String) : SignalsResult :=
  let signals := sortByCreatedDesc (db.trading_signals.filter (fun s => s.status == "active"))
  match userId with
  | some uid =>
      let subscription : Option SubscriptionRow :=
        match maybeSingle (activeSubsOf db uid) with
        | Except.ok o => o
        | Except.error _ => none
      if subscription.isNone then
        { success := false, signals := none, error := some "No active subscription" }
      else
        { success := true, signals := some signals, error := none }
  | none => { success := true, signals := some signals, error := none }

/-- Embeds `tradingSignalService.getSignalsByType` (`part_003` lines
86-115): the same subscription gate, then the active signals of one
`signal_type`, most recent first. -/
def getSignalsByType (db : DB) (signalType : String) (userId : Option String) : SignalsResult :=
  let gate : Bool :=
    match userId with
    | some uid =>
        (match maybeSingle (activeSubsOf db uid) with
         | Except.ok o => o
         | Except.error _ => none).isNone
    | none => false
  if gate then
    { success := false, signals := none, error := some "No active subscription" }
  else
    { success := true,
      signals := some (sortByCreatedDesc (db.trading_signals.filter
        (fun s => s.signal_type == signalType && s.status == "active"))),
      error := none }

/-- Embeds `tradingSignalService.checkUserSignalAccess` (`part_003` lines
174-217).  Here the `.maybeSingle()` error IS checked and thrown, landing
in the catch branch; `new Date(expires_at)` of a SQL NULL is the epoch, so
a missing `expires_at` is `Option.getD 0`. -/
def checkUserSignalAccess (db : DB) (uid : String) (now : Nat) : AccessResult :=
  match maybeSingle (activeSubsOf db uid) with
  | Except.error e =>
      { success := false, hasAccess := false, message := none,
        error := some e, subscription := none }
  | Except.ok none =>
      { success := false, hasAccess := false,
        message := some "No active subscription found", error := none,
        subscription := none }
  | Except.ok (some sub) =>
      if sub.expires_at.getD 0 < now then
        { success := false, hasAccess := false,
          message := some "Subscription has expired", error := none,
          subscription := none }
      else
        { success := true, hasAccess := true, message := none, error := none,
          subscription := some sub }

/-- Embeds `tradingSignalService.trackSignalView` (`part_003` lines
133-152).  `envErr` is an environmental client error; when the insert
reaches the table, a pre-existing `(user_id, signal_id)` pair violates the
schema's `UNIQUE(user_id, signal_id)` and the database reports a
duplicate-key error, which the service swallows (`!error.message.includes
('duplicate')` guards the throw). -/
def trackSignalView (db : DB) (uid sid : String) (now : Nat)
    (envErr : Option String) : SimpleResult × DB :=
  match envErr with
  | some m =>
      if strIncludes m "duplicate" then ({ success := true, error := none }, db)
      else ({ success := false, error := some m }, db)
  | none =>
      if db.user_signal_access.any (fun r => r.user_id == uid && r.signal_id == sid) then
        ({ success := true, error := none }, db)
      else
        ({ success := true, error := none },
         { db with user_signal_access := db.user_signal_access ++ [⟨uid, sid, now⟩] })

/-- Number of `user_signal_access` rows for one `(user_id, signal_id)` pair. -/
def countPair (db : DB) (uid sid : String) : Nat :=
  (db.user_signal_access.filter (fun r => r.user_id == uid && r.signal_id == sid)).length

/-- Observable effects of the purchase / notification flow, recorded in the
order the services perform them. -/
inductive Event where
  | purchaseInserted : PurchaseRow → Event
  | adminNotified : AdminNotificationRow → Event
  | subscriptionActivated : String → String → Event
  | paymentSuccessEmailSent : String → String → Nat → String → String → Event
deriving DecidableEq, Repr

/-- Input of `purchaseService.createPurchase`.  `payment_method` is the TS
union `stripe | paypal | crypto`, so the purchases CHECK constraint on it
cannot be violated and is not modelled. -/
structure CreatePurchaseData where
  userId : String
  planType : String
  planName : String
  amount : Nat
  paymentMethod : String
  transactionId : Option String
  paymentDetails : Option String
deriving DecidableEq, Repr, Inhabited

/-- Extra fields `processPurchaseAndNotify` takes on top of
`CreatePurchaseData` (the TS intersection type). -/
structure PurchaseNotifyData extends CreatePurchaseData where
  userEmail : String
  userName : String
  features : List String
deriving DecidableEq, Repr, Inhabited

/-- Result shape of `createPurchase` / `processPurchaseAndNotify`. -/
structure PurchaseResult where
  success : Bool
  purchase : Option PurchaseRow
  error : Option String
deriving DecidableEq, Repr, Inhabited

/-- The `purchases` row built by `createPurchase`: currency USD, status
completed, `completed_at` the current time; `pid` is the generated uuid. -/
def mkPurchaseRow (d : CreatePurchaseData) (pid : String) (now : Nat) : PurchaseRow :=
  { id := pid, user_id := d.userId, plan_type := d.planType,
    plan_name := d.planName, amount := d.amount, currency := "USD",
    payment_method := d.paymentMethod, payment_status := "completed",
    transaction_id := d.transactionId, payment_details := d.paymentDetails,
    created_at := now, completed_at := some now }

/-- Embeds the `notify_admin_on_purchase` trigger function (`part_004`
lines 452-486): an `INSERT ... SELECT` producing one `admin_notifications`
row per `users` row whose id equals the new purchase's `user_id`. -/
def notify_admin_on_purchase (users : List UserRow) (p : PurchaseRow) :
    List AdminNotificationRow :=
  (users.filter (fun u => u.id == p.user_id)).map (fun u =>
    { notification_type := "purchase",
      title := "New Purchase: " ++ p.plan_name,
      message := "User " ++ u.email ++ " purchased " ++ p.plan_name
        ++ " for $" ++ toString p.amount,
      related_user_id := p.user_id,
      related_purchase_id := p.id,
      metadata_user_email := u.email,
      metadata_user_name := u.first_name ++ " " ++ u.last_name,
      metadata_plan_name := p.plan_name,
      metadata_amount := p.amount,
      metadata_payment_method := p.payment_method })

/-- Embeds `purchaseService.createPurchase` (`part_001` lines 338-364).
`insOk` is the environment oracle for the insert; on success the
`AFTER INSERT` trigger fires and its notifications are appended. -/
def createPurchase (db : DB) (d : CreatePurchaseData) (insOk : Bool)
    (pid : String) (now : Nat) : PurchaseResult × DB × List Event :=
  if insOk then
    let p := mkPurchaseRow d pid now
    let notifs := notify_admin_on_purchase db.users p
    ({ success := true, purchase := some p, error := none },
     { db with purchases := db.purchases ++ [p],
               admin_notifications := db.admin_notifications ++ notifs },
     Event.purchaseInserted p :: notifs.map Event.adminNotified)
  else
    ({ success := false, purchase := none, error := some "insert error" }, db, [])

/-- Per-row effect of the `user_subscriptions` UPDATE issued by
`activateSubscription`: rows matching `user_id` and `plan_type` become
active with the new `started_at` / `expires_at`. -/
def activateRow (uid pt : String) (now expAt : Nat) (s : SubscriptionRow) :
    SubscriptionRow :=
  if s.user_id == uid && s.plan_type == pt then
    { s with status := "active", started_at := some now, expires_at := some expAt }
  else s

/-- Embeds `purchaseService.activateSubscription` (`part_001` lines
366-394).  JavaScript `Date.setMonth` calendar arithmetic is abstracted as
the oracle `addMonths`; `updOk` is the environment oracle for the UPDATE
(setting the always-valid status `active` violates no constraint). -/
def activateSubscription (db : DB) (uid pt : String) (now : Nat)
    (addMonths : Nat → Nat → Nat) (updOk : Bool) :
    SimpleResult × DB × List Event :=
  let expiresAt := if pt == "enterprise" then addMonths now 3 else addMonths now 1
  if updOk then
    ({ success := true, error := none },
     { db with user_subscriptions :=
         db.user_subscriptions.map (activateRow uid pt now expiresAt) },
     [Event.subscriptionActivated uid pt])
  else
    ({ success := false, error := some "update error" }, db, [])

/-- Modelled from the spec: `emailService.sendPaymentSuccessEmail` is
imported by `purchaseService` but its module is not under `src/`.  The
spec describes the flow as sequential writes plus "notification fan-out",
so the call is modelled as an always-completing notification emission
recorded as one event; its arguments are those of the call site. -/
def sendPaymentSuccessEmail (emailTo userName : String) (amount : Nat)
    (planName txn : String) : List Event :=
  [Event.paymentSuccessEmailSent emailTo userName amount planName txn]

/-- Embeds `purchaseService.processPurchaseAndNotify` (`part_001` lines
396-424): `createPurchase`, then — only if it succeeded — an
`activateSubscription` whose result is not checked, then the payment
email, returning success with the created purchase. -/
def processPurchaseAndNotify (db : DB) (d : PurchaseNotifyData)
    (purchOk updOk : Bool) (pid : String) (now : Nat)
    (addMonths : Nat → Nat → Nat) : PurchaseResult × DB × List Event :=
  let r1 := createPurchase db d.toCreatePurchaseData purchOk pid now
  if r1.1.success = false then r1
  else
    let r2 := activateSubscription r1.2.1 d.userId d.planType now addMonths updOk
    let e3 := sendPaymentSuccessEmail d.userEmail d.userName d.amount d.planName
      (d.transactionId.getD "N/A")
    ({ success := true, purchase := r1.1.purchase, error := none },
     r2.2.1, r1.2.2 ++ r2.2.2 ++ e3)

/-- Input of both `signUp` variants. -/
structure SignUpData where
  firstName : String
  lastName : String
  email : String
  password : String
  plan_type : String
deriving DecidableEq, Repr, Inhabited

/-- The user summary a successful `signUp` returns. -/
structure SignUpUser where
  id : String
  email : String
  first_name : String
  last_name : String
  unique_id : String
  plan_type : String
deriving DecidableEq, Repr, Inhabited

/-- Result shape of both `signUp` variants. -/
structure SignUpResult where
  success : Bool
  user : Option SignUpUser
  error : Option String
deriving DecidableEq, Repr, Inhabited

/-- The user summary a successful legacy `signIn` returns (`profile` and
`subscription` are `.maybeSingle()` lookups whose errors are ignored). -/
structure SignInUser where
  id : String
  email : String
  first_name : String
  last_name : String
  role : String
  profile : Option ProfileRow
  subscription : Option SubscriptionRow
deriving DecidableEq, Repr, Inhabited

/-- Result shape of the legacy `signIn`. -/
structure SignInResult where
  success : Bool
  user : Option SignInUser
  error : Option String
deriving DecidableEq, Repr, Inhabited

/-- Embeds the legacy `authService.signUp`
(`src/services/supabaseAuth.ts` lines 18-87).  Three sequential inserts,
each aborting the rest on error (no transaction, so earlier rows remain):
the `users` insert fails on a duplicate email (`UNIQUE`) or an
environmental error `userInsOk = false`; the `user_profiles` insert on
`profInsOk = false`; the `user_subscriptions` insert on `subInsOk = false`,
on a `plan_type` outside the schema's CHECK list, or — when
`getPlanDetails` produced an inherited `Object.prototype` member instead
of a plan — on the CHECK and NOT NULL violations of the junk insert row.
`passwordHash` is the bcrypt hash, `uniqueId` the random 6-digit id,
`newUserId` the generated uuid. -/
def signUpLegacy (db : DB) (d : SignUpData)
    (passwordHash uniqueId newUserId : String)
    (userInsOk profInsOk subInsOk : Bool) : SignUpResult × DB :=
  if userInsOk = false ∨ db.users.any (fun u => u.email == d.email) then
    ({ success := false, user := none, error := some "users insert error" }, db)
  else
    let u : UserRow :=
      { id := newUserId, email := d.email, password_hash := passwordHash,
        first_name := d.firstName, last_name := d.lastName, role := "user",
        is_active := true, email_verified := false }
    let db1 := { db with users := db.users ++ [u] }
    if profInsOk = false then
      ({ success := false, user := none, error := some "profile insert error" }, db1)
    else
      let db2 := { db1 with user_profiles := db1.user_profiles ++
        [{ user_id := newUserId, unique_id := uniqueId,
           account_type := "personal", risk_tolerance := "moderate",
           setup_complete := false, timezone := "UTC" }] }
      match authService.getPlanDetails d.plan_type with
      | PlanLookup.protoMember _ =>
          -- the insert row built from the inherited member carries no plan
          -- fields (undefined plan_name, price, period, features) and an
          -- invalid plan_type, so the database rejects the insert
          ({ success := false, user := none,
             error := some "subscription insert error" }, db2)
      | PlanLookup.plan pd =>
      if subInsOk = false ∨ validPlanType d.plan_type = false then
        ({ success := false, user := none,
           error := some "subscription insert error" }, db2)
      else
        let db3 := { db2 with user_subscriptions := db2.user_subscriptions ++
          [{ user_id := newUserId, plan_type := d.plan_type,
             plan_name := pd.name, price := pd.price, period := pd.period,
             status := "pending", features := pd.features,
             started_at := none, expires_at := none }] }
        let su : SignUpUser :=
          { id := newUserId, email := d.email, first_name := d.firstName,
            last_name := d.lastName, unique_id := uniqueId,
            plan_type := d.plan_type }
        ({ success := true, user := some su, error := none }, db3)

/-- Embeds the provider-delegating `authService.signUp` (`part_002` lines
17-82).  `supabase.auth.signUp` keeps its accounts outside the modelled
tables; after a successful `user_profiles` insert the subscription insert
argument evaluates `user.id`, but no identifier `user` is in scope (the
account is held in `authData.user`), so a ReferenceError with message
"user is not defined" is raised before any insert and lands in the catch
branch. -/
def signUpProvider (db : DB) (d : SignUpData) (authUserId uniqueId : String)
    (authOk profInsOk : Bool) : SignUpResult × DB :=
  if authOk = false then
    ({ success := false, user := none, error := some "auth error" }, db)
  else if profInsOk = false then
    ({ success := false, user := none, error := some "profile insert error" }, db)
  else
    let db1 := { db with user_profiles := db.user_profiles ++
      [{ user_id := authUserId, unique_id := uniqueId,
         account_type := "personal", risk_tolerance := "moderate",
         setup_complete := false, timezone := "UTC" }] }
    ({ success := false, user := none, error := some "user is not defined" }, db1)

/-- Embeds the legacy `authService.signIn`
(`src/services/supabaseAuth.ts` lines 89-152).  `compare` is
`bcrypt.compare` of the supplied password against the stored hash; the
`users` lookup is `.eq(email, ...).maybeSingle()` with the error checked
and thrown into the catch branch. -/
def signIn (db : DB) (email password : String)
    (compare : String → String → Bool) : SignInResult :=
  match maybeSingle (db.users.filter (fun u => u.email == email)) with
  | Except.error e => { success := false, user := none, error := some e }
  | Except.ok none =>
      { success := false, user := none, error := some "Invalid email or password" }
  | Except.ok (some u) =>
      if compare password u.password_hash = false then
        { success := false, user := none, error := some "Invalid email or password" }
      else if u.is_active = false then
        { success := false, user := none, error := some "Account is deactivated" }
      else
        let profile : Option ProfileRow :=
          match maybeSingle (db.user_profiles.filter (fun p => p.user_id == u.id)) with
          | Except.ok o => o
          | Except.error _ => none
        let subscription : Option SubscriptionRow :=
          match maybeSingle (activeSubsOf db u.id) with
          | Except.ok o => o
          | Except.error _ => none
        let su : SignInUser :=
          { id := u.id, email := u.email, first_name := u.first_name,
            last_name := u.last_name, role := u.role, profile := profile,
            subscription := subscription }
        { success := true, user := some su, error := none }

/-- Input of `tradingSignalService.createSignal`. -/
structure CreateSignalData where
  signalType : String
  symbol : String
  currencyPair : Option String
  timeframe : String
  direction : String
  entryPrice : Int
  stopLoss : Int
  takeProfit : String
  pipsAtRisk : Option String
  confidence : Option Nat
  analysis : Option String
  ictConcepts : List String
  createdBy : String
  expiresAt : Option Nat
deriving DecidableEq, Repr, Inhabited

/-- Embeds `tradingSignalService.createSignal` (`part_003` lines 21-52):
one insert with status `active`; `insOk` is the environment oracle, `sid`
the generated uuid. -/
def createSignal (db : DB) (d : CreateSignalData) (insOk : Bool)
    (sid : String) (now : Nat) : SimpleResult × DB :=
  if insOk then
    ({ success := true, error := none },
     { db with trading_signals := db.trading_signals ++
       [{ id := sid, signal_type := d.signalType, symbol := d.symbol,
          currency_pair := d.currencyPair, timeframe := d.timeframe,
          direction := d.direction, entry_price := d.entryPrice,
          stop_loss := d.stopLoss, take_profit := d.takeProfit,
          pips_at_risk := d.pipsAtRisk, confidence := d.confidence,
          analysis := d.analysis, ict_concepts := d.ictConcepts,
          status := "active", created_by := some d.createdBy,
          created_at := now, expires_at := d.expiresAt }] })
  else ({ success := false, error := some "insert error" }, db)

/-- Embeds `tradingSignalService.updateSignalStatus` (`part_003` lines
117-131): sets the status of the signals with the given id. -/
def updateSignalStatus (db : DB) (sid newStatus : String) (updOk : Bool) :
    SimpleResult × DB :=
  if updOk then
    ({ success := true, error := none },
     { db with trading_signals := db.trading_signals.map (fun s =>
         if s.id == sid then { s with status := newStatus } else s) })
  else ({ success := false, error := some "update error" }, db)

/-- One invocation of a state-mutating service entry point, with its
non-deterministic environment (generated ids, clock, oracles) fixed. -/
inductive Op where
  | opSignUpLegacy (d : SignUpData) (passwordHash uniqueId newUserId : String)
      (userInsOk profInsOk subInsOk : Bool)
  | opSignUpProvider (d : SignUpData) (authUserId uniqueId : String)
      (authOk profInsOk : Bool)
  | opActivateSubscription (uid pt : String) (now : Nat)
      (addMonths : Nat → Nat → Nat) (updOk : Bool)
  | opCreatePurchase (d : CreatePurchaseData) (insOk : Bool) (pid : String) (now : Nat)
  | opProcessPurchaseAndNotify (d : PurchaseNotifyData) (purchOk updOk : Bool)
      (pid : String) (now : Nat) (addMonths : Nat → Nat → Nat)
  | opCreateSignal (d : CreateSignalData) (insOk : Bool) (sid : String) (now : Nat)
  | opUpdateSignalStatus (sid newStatus : String) (updOk : Bool)
  | opTrackSignalView (uid sid : String) (now : Nat) (envErr : Option String)

/-- Applies one service call to the database, appending its events. -/
def applyOp (st : DB × List Event) : Op → DB × List Event
  | Op.opSignUpLegacy d h uq nid b1 b2 b3 =>
      ((signUpLegacy st.1 d h uq nid b1 b2 b3).2, st.2)
  | Op.opSignUpProvider d aid uq b1 b2 =>
      ((signUpProvider st.1 d aid uq b1 b2).2, st.2)
  | Op.opActivateSubscription uid pt now am b =>
      let r := activateSubscription st.1 uid pt now am b
      (r.2.1, st.2 ++ r.2.2)
  | Op.opCreatePurchase d b pid now =>
      let r := createPurchase st.1 d b pid now
      (r.2.1, st.2 ++ r.2.2)
  | Op.opProcessPurchaseAndNotify d b1 b2 pid now am =>
      let r := processPurchaseAndNotify st.1 d b1 b2 pid now am
      (r.2.1, st.2 ++ r.2.2)
  | Op.opCreateSignal d b sid now => ((createSignal st.1 d b sid now).2, st.2)
  | Op.opUpdateSignalStatus sid ns b => ((updateSignalStatus st.1 sid ns b).2, st.2)
  | Op.opTrackSignalView uid sid now e => ((trackSignalView st.1 uid sid now e).2, st.2)

/-- Applies a sequence of service calls starting from a given state. -/
def applyOps (st : DB × List Event) (ops : List Op) : DB × List Event :=
  ops.foldl applyOp st

/-- The initial state: empty database, no events yet. -/
def initState : DB × List Event := (DB.empty, [])

/-- In a list whose key column is duplicate-free (a UNIQUE / PRIMARY KEY
column), filtering on the key of a member returns exactly that member. -/
theorem filter_key_singleton {α : Type} (f : α → String) (l : List α) :
    (l.map f).Nodup → ∀ a ∈ l, l.filter (fun x => f x == f a) = [a] := by
  induction l with
  | nil => intro _ a ha; cases ha
  | cons b t ih =>
      intro hl a ha
      rw [List.map_cons, List.nodup_cons] at hl
      rcases List.mem_cons.mp ha with rfl | hat
      · have ht : t.filter (fun x => f x == f a) = [] := by
          refine List.filter_eq_nil_iff.mpr ?_
          intro x hx hfx
          exact hl.1 ((beq_iff_eq.mp hfx) ▸ List.mem_map_of_mem f hx)
        rw [List.filter_cons_of_pos (by simp), ht]
      · have hne : (f b == f a) = false := by
          refine beq_eq_false_iff_ne.mpr ?_
          intro he
          exact hl.1 (he ▸ List.mem_map_of_mem f hat)
        rw [List.filter_cons_of_neg (by simp [hne]), ih hl.2 a hat]

/-- Membership in a list with no matching element filters to nil. -/
theorem filter_key_nil {α : Type} (f : α → String) (l : List α) (k : String) :
    (∀ a ∈ l, f a ≠ k) → l.filter (fun x => f x == k) = [] := by
  intro h
  refine List.filter_eq_nil_iff.mpr ?_
  intro x hx hfx
  exact h x hx (beq_iff_eq.mp hfx)

/-- C6: for each of the four plan types kickstarter/starter/pro/enterprise,
`getPlanDetails` returns the catalogue record with name
Kickstarter/Starter/Pro/Enterprise, price 0/99/199/499, period `month` for
the first three and `3 months` for enterprise, and a non-empty feature
list; all three textual copies of the function agree everywhere. -/
theorem getPlanDetails_catalogue :
    (purchaseService.getPlanDetails "kickstarter" = PlanLookup.plan plansKickstarter ∧
     plansKickstarter.name = "Kickstarter" ∧ plansKickstarter.price = 0 ∧
     plansKickstarter.period = "month" ∧ plansKickstarter.features ≠ []) ∧
    (purchaseService.getPlanDetails "starter" = PlanLookup.plan plansStarter ∧
     plansStarter.name = "Starter" ∧ plansStarter.price = 99 ∧
     plansStarter.period = "month" ∧ plansStarter.features ≠ []) ∧
    (purchaseService.getPlanDetails "pro" = PlanLookup.plan plansPro ∧
     plansPro.name = "Pro" ∧ plansPro.price = 199 ∧
     plansPro.period = "month" ∧ plansPro.features ≠ []) ∧
    (purchaseService.getPlanDetails "enterprise" = PlanLookup.plan plansEnterprise ∧
     plansEnterprise.name = "Enterprise" ∧ plansEnterprise.price = 499 ∧
     plansEnterprise.period = "3 months" ∧ plansEnterprise.features ≠ []) ∧
    (∀ pt, authService.getPlanDetails pt = purchaseService.getPlanDetails pt) ∧
    (∀ pt, authServiceV2.getPlanDetails pt = purchaseService.getPlanDetails pt) := by
  refine ⟨?_, ?_, ?_, ?_, fun _ => rfl, fun _ => rfl⟩ <;>
    refine ⟨rfl, rfl, rfl, rfl, ?_⟩ <;> decide

/-- C8: the provider-delegating `signUp` (`part_002`) references the
undefined identifier `user` when building its `user_subscriptions` insert,
so whenever the provider sign-up and the profile insert succeed it throws
there and returns failure with the ReferenceError message; in every case
its result has `success = false` and it never writes a subscription row. -/
theorem providerSignUp_never_succeeds :
    ∀ (db : DB) (d : SignUpData) (aid uq : String) (authOk profOk : Bool),
      ((signUpProvider db d aid uq authOk profOk).1.success = false) ∧
      ((signUpProvider db d aid uq authOk profOk).2.user_subscriptions =
        db.user_subscriptions) ∧
      ((signUpProvider db d aid uq true true).1.error = some "user is not defined") := by
  intro db d aid uq authOk profOk
  refine ⟨?_, ?_, rfl⟩ <;> cases authOk <;> cases profOk <;> rfl

/-- C2: `processPurchaseAndNotify` runs `createPurchase`, then
`activateSubscription`, then `sendPaymentSuccessEmail`, in that order (the
event trace); when the purchase insert fails it returns that failure
immediately, leaving the database untouched and emitting no activation and
no email; when it succeeds the overall result is success together with the
created purchase row, whatever the activation outcome. -/
theorem processPurchaseAndNotify_order :
    ∀ (db : DB) (d : PurchaseNotifyData) (updOk : Bool) (pid : String)
      (now : Nat) (am : Nat → Nat → Nat),
      (processPurchaseAndNotify db d false updOk pid now am =
        ({ success := false, purchase := none, error := some "insert error" },
         db, [])) ∧
      ((processPurchaseAndNotify db d true updOk pid now am).1.success = true) ∧
      ((processPurchaseAndNotify db d true updOk pid now am).1.purchase =
        some (mkPurchaseRow d.toCreatePurchaseData pid now)) ∧
      ((processPurchaseAndNotify db d true true pid now am).2.2 =
        Event.purchaseInserted (mkPurchaseRow d.toCreatePurchaseData pid now) ::
          (notify_admin_on_purchase db.users
            (mkPurchaseRow d.toCreatePurchaseData pid now)).map Event.adminNotified ++
          [Event.subscriptionActivated d.userId d.planType,
           Event.paymentSuccessEmailSent d.userEmail d.userName d.amount d.planName
             (d.transactionId.getD "N/A")]) := by
  intro db d updOk pid now am
  refine ⟨rfl, ?_, ?_, ?_⟩ <;>
    simp [processPurchaseAndNotify, createPurchase, activateSubscription,
      sendPaymentSuccessEmail]

/-- C4: with the update succeeding, `activateSubscription(userId, planType)`
reports success and rewrites every `user_subscriptions` row matching both
keys to status `active` with `started_at` the current time and `expires_at`
the current time plus three months for `enterprise` and one month
otherwise, leaving all other rows unchanged. -/
theorem activateSubscription_updates :
    ∀ (db : DB) (uid pt : String) (now : Nat) (am : Nat → Nat → Nat),
      ((activateSubscription db uid pt now am true).1.success = true) ∧
      ((activateSubscription db uid pt now am true).2.1.user_subscriptions.length =
        db.user_subscriptions.length) ∧
      (∀ s ∈ db.user_subscriptions,
        (s.user_id = uid ∧ s.plan_type = pt →
          ({ s with
              status := "active", started_at := some now,
              expires_at := some (if pt == "enterprise" then am now 3 else am now 1) }
            : SubscriptionRow) ∈
            (activateSubscription db uid pt now am true).2.1.user_subscriptions) ∧
        (¬ (s.user_id = uid ∧ s.plan_type = pt) →
          s ∈ (activateSubscription db uid pt now am true).2.1.user_subscriptions)) := by
  intro db uid pt now am
  refine ⟨rfl, ?_, ?_⟩
  · simp [activateSubscription]
  · intro s hs
    constructor
    · rintro ⟨h1, h2⟩
      have h : activateRow uid pt now (if pt == "enterprise" then am now 3 else am now 1) s =
          { s with
              status := "active", started_at := some now,
              expires_at := some (if pt == "enterprise" then am now 3 else am now 1) } := by
        simp [activateRow, h1, h2]
      have hm := List.mem_map_of_mem
        (activateRow uid pt now (if pt == "enterprise" then am now 3 else am now 1)) hs
      rw [h] at hm
      exact hm
    · intro hn
      have h : activateRow uid pt now (if pt == "enterprise" then am now 3 else am now 1) s = s := by
        simp only [activateRow]
        rw [if_neg]
        simp only [Bool.and_eq_true, beq_iff_eq]
        exact fun hc => hn ⟨hc.1, hc.2⟩
      have hm := List.mem_map_of_mem
        (activateRow uid pt now (if pt == "enterprise" then am now 3 else am now 1)) hs
      rw [h] at hm
      exact hm

/-- Concrete month-addition oracle (30-day months in milliseconds). -/
def amWitness : Nat → Nat → Nat := fun t m => t + m * 2592000000

def subPending : SubscriptionRow :=
  { user_id := "u1", plan_type := "pro", plan_name := "Pro", price := 199,
    period := "month", status := "pending", features := plansPro.features,
    started_at := none, expires_at := none }

def dbOneSub : DB := { DB.empty with user_subscriptions := [subPending] }

/-- Witness for C4: activating the one pending `pro` row of a concrete
database marks it active with the concrete timestamps. -/
theorem activateSubscription_updates_witness :
    ({ subPending with
        status := "active", started_at := some 1000,
        expires_at := some (amWitness 1000 1) } : SubscriptionRow) ∈
      (activateSubscription dbOneSub "u1" "pro" 1000 amWitness true).2.1.user_subscriptions ∧
    (activateSubscription dbOneSub "u1" "pro" 1000 amWitness true).1.success = true := by
  constructor
  · have h := (activateSubscription_updates dbOneSub "u1" "pro" 1000 amWitness).2.2
      subPending (by decide)
    simpa using h.1 ⟨rfl, rfl⟩
  · exact (activateSubscription_updates dbOneSub "u1" "pro" 1000 amWitness).1

/-- C5: when a purchase row whose `user_id` matches an existing, uniquely
identified `users` row is inserted, the `notify_admin_on_purchase` trigger
appends exactly one `admin_notifications` row of type `purchase` carrying
the purchase and purchaser data (email, full name, plan name, amount,
payment method) copied into the metadata. -/
theorem purchase_trigger_notifies :
    ∀ (db : DB) (d : CreatePurchaseData) (pid : String) (now : Nat) (u : UserRow),
      u ∈ db.users → (db.users.map UserRow.id).Nodup → u.id = d.userId →
      (createPurchase db d true pid now).2.1.admin_notifications =
        db.admin_notifications ++
          [{ notification_type := "purchase",
             title := "New Purchase: " ++ d.planName,
             message := "User " ++ u.email ++ " purchased " ++ d.planName
               ++ " for $" ++ toString d.amount,
             related_user_id := d.userId,
             related_purchase_id := pid,
             metadata_user_email := u.email,
             metadata_user_name := u.first_name ++ " " ++ u.last_name,
             metadata_plan_name := d.planName,
             metadata_amount := d.amount,
             metadata_payment_method := d.paymentMethod }] := by
  intro db d pid now u hu hnd hid
  have hfilter : db.users.filter (fun x => x.id == (mkPurchaseRow d pid now).user_id) = [u] := by
    have h1 : (mkPurchaseRow d pid now).user_id = UserRow.id u := by
      simp [mkPurchaseRow, hid]
    rw [h1]
    exact filter_key_singleton UserRow.id db.users hnd u hu
  show db.admin_notifications ++ notify_admin_on_purchase db.users (mkPurchaseRow d pid now) = _
  rw [notify_admin_on_purchase, hfilter]
  simp [mkPurchaseRow]

/-- Concrete purchaser for the C5 witness. -/
def userW : UserRow :=
  { id := "u1", email := "jo@example.com", password_hash := "h",
    first_name := "Jo", last_name := "Doe", role := "user",
    is_active := true, email_verified := false }

/-- Database holding just the concrete purchaser. -/
def dbOneUser : DB := { DB.empty with users := [userW] }

/-- Concrete purchase input for the C5 witness. -/
def purchaseDataW : CreatePurchaseData :=
  { userId := "u1", planType := "pro", planName := "Pro", amount := 199,
    paymentMethod := "stripe", transactionId := some "tx1", paymentDetails := none }

/-- Witness for C5: the trigger fires on a concrete purchase and produces
the one fully evaluated notification row. -/
theorem purchase_trigger_notifies_witness :
    (createPurchase dbOneUser purchaseDataW true "p1" 500).2.1.admin_notifications =
      [{ notification_type := "purchase", title := "New Purchase: Pro",
         message := "User jo@example.com purchased Pro for $199",
         related_user_id := "u1", related_purchase_id := "p1",
         metadata_user_email := "jo@example.com", metadata_user_name := "Jo Doe",
         metadata_plan_name := "Pro", metadata_amount := 199,
         metadata_payment_method := "stripe" }] := by
  have h := purchase_trigger_notifies dbOneUser purchaseDataW "p1" 500 userW
    (by decide) (by decide) rfl
  rw [h]
  decide

/-- C10: `trackSignalView` is idempotent at its interface.  Starting from
a state respecting the `UNIQUE(user_id, signal_id)` constraint, the first
call succeeds, a second call with the same pair hits the constraint, whose
duplicate-key error is swallowed, so it also returns success, changes
nothing, and leaves exactly one row for the pair. -/
theorem trackSignalView_idempotent :
    ∀ (db : DB) (uid sid : String) (t1 t2 : Nat),
      countPair db uid sid ≤ 1 →
      ((trackSignalView db uid sid t1 none).1.success = true) ∧
      ((trackSignalView (trackSignalView db uid sid t1 none).2 uid sid t2 none).1.success
        = true) ∧
      ((trackSignalView (trackSignalView db uid sid t1 none).2 uid sid t2 none).2 =
        (trackSignalView db uid sid t1 none).2) ∧
      (countPair (trackSignalView (trackSignalView db uid sid t1 none).2 uid sid t2 none).2
        uid sid = 1) := by
  intro db uid sid t1 t2 h
  by_cases hp : db.user_signal_access.any
      (fun r => r.user_id == uid && r.signal_id == sid) = true
  · have hdb1 : (trackSignalView db uid sid t1 none).2 = db := by
      simp [trackSignalView, hp]
    have hdb2 : (trackSignalView db uid sid t2 none).2 = db := by
      simp [trackSignalView, hp]
    have hone : countPair db uid sid = 1 := by
      rcases List.any_eq_true.mp hp with ⟨r, hr, hpr⟩
      have hmem : r ∈ db.user_signal_access.filter
          (fun r => r.user_id == uid && r.signal_id == sid) :=
        List.mem_filter.mpr ⟨hr, hpr⟩
      have hge : 1 ≤ countPair db uid sid := by
        rcases List.mem_iff_append.mp hmem with ⟨l1, l2, heq⟩
        simp only [countPair, heq, List.length_append, List.length_cons]
        omega
      omega
    rw [hdb1, hdb2]
    exact ⟨by simp [trackSignalView, hp], by simp [trackSignalView, hp], rfl, hone⟩
  · have hzero : db.user_signal_access.filter
        (fun r => r.user_id == uid && r.signal_id == sid) = [] := by
      refine List.filter_eq_nil_iff.mpr ?_
      intro r hr hpr
      exact hp (List.any_eq_true.mpr ⟨r, hr, hpr⟩)
    have hdb1 : (trackSignalView db uid sid t1 none).2 =
        { db with user_signal_access := db.user_signal_access ++ [⟨uid, sid, t1⟩] } := by
      simp [trackSignalView, hp]
    have hp2 : ({ db with
        user_signal_access := db.user_signal_access ++ [⟨uid, sid, t1⟩] } : DB).user_signal_access.any
        (fun r => r.user_id == uid && r.signal_id == sid) = true :=
      List.any_eq_true.mpr ⟨⟨uid, sid, t1⟩, by simp, by simp⟩
    have hdb2 : (trackSignalView { db with
        user_signal_access := db.user_signal_access ++ [⟨uid, sid, t1⟩] } uid sid t2 none).2 =
        { db with user_signal_access := db.user_signal_access ++ [⟨uid, sid, t1⟩] } := by
      simp [trackSignalView, hp2]
    rw [hdb1, hdb2]
    refine ⟨by simp [trackSignalView, hp], by simp [trackSignalView, hp2], rfl, ?_⟩
    simp [countPair, List.filter_append, hzero]

/-- Witness for C10: two consecutive views of the same signal by the same
user starting from the empty database. -/
theorem trackSignalView_idempotent_witness :
    countPair DB.empty "u1" "s1" ≤ 1 ∧
    ((trackSignalView DB.empty "u1" "s1" 5 none).1.success = true) ∧
    ((trackSignalView (trackSignalView DB.empty "u1" "s1" 5 none).2 "u1" "s1" 9 none).1.success
      = true) ∧
    (countPair (trackSignalView (trackSignalView DB.empty "u1" "s1" 5 none).2 "u1" "s1" 9 none).2
      "u1" "s1" = 1) := by
  have h := trackSignalView_idempotent DB.empty "u1" "s1" 5 9 (by decide)
  exact ⟨by decide, h.1, h.2.1, h.2.2.2⟩

/-- C3: with the schema's UNIQUE email constraint holding, the legacy
`signIn` succeeds exactly when a `users` row with the given email exists,
the bcrypt comparison of the supplied password against its
`password_hash` succeeds, and the row is active; an unknown email and a
failed comparison both yield the error `Invalid email or password`, and a
successful comparison on a deactivated row yields
`Account is deactivated`. -/
theorem signIn_characterization :
    ∀ (db : DB) (em pw : String) (compare : String → String → Bool),
      (db.users.map UserRow.email).Nodup →
      (((signIn db em pw compare).success = true) ↔
        (∃ u ∈ db.users, u.email = em ∧ compare pw u.password_hash = true ∧
          u.is_active = true)) ∧
      ((¬ ∃ u ∈ db.users, u.email = em) →
        signIn db em pw compare =
          { success := false, user := none, error := some "Invalid email or password" }) ∧
      (∀ u ∈ db.users, u.email = em → compare pw u.password_hash = false →
        signIn db em pw compare =
          { success := false, user := none, error := some "Invalid email or password" }) ∧
      (∀ u ∈ db.users, u.email = em → compare pw u.password_hash = true →
        u.is_active = false →
        signIn db em pw compare =
          { success := false, user := none, error := some "Account is deactivated" }) := by
  intro db em pw compare hnd
  by_cases hex : ∃ u ∈ db.users, u.email = em
  · obtain ⟨u0, hu0, he0⟩ := hex
    have hfil : db.users.filter (fun x => x.email == em) = [u0] := by
      rw [← he0]
      exact filter_key_singleton UserRow.email db.users hnd u0 hu0
    have huniq : ∀ u ∈ db.users, u.email = em → u = u0 := by
      intro u hu hue
      have hm : u ∈ db.users.filter (fun x => x.email == em) :=
        List.mem_filter.mpr ⟨hu, by simp [hue]⟩
      rw [hfil] at hm
      simpa using hm
    by_cases hc : compare pw u0.password_hash = true
    · by_cases ha : u0.is_active = true
      · have hsucc : (signIn db em pw compare).success = true := by
          simp [signIn, hfil, maybeSingle, hc, ha]
        refine ⟨by rw [hsucc]; exact iff_of_true rfl ⟨u0, hu0, he0, hc, ha⟩,
          fun hnex => absurd ⟨u0, hu0, he0⟩ hnex, ?_, ?_⟩
        · intro u hu hue hcf
          rw [huniq u hu hue] at hcf
          rw [hc] at hcf
          cases hcf
        · intro u hu hue hct haf
          rw [huniq u hu hue] at haf
          rw [ha] at haf
          cases haf
      · have haf : u0.is_active = false := by
          revert ha
          cases u0.is_active <;> simp
        have hsig : signIn db em pw compare =
            { success := false, user := none, error := some "Account is deactivated" } := by
          simp [signIn, hfil, maybeSingle, hc, haf]
        refine ⟨?_, fun hnex => absurd ⟨u0, hu0, he0⟩ hnex, ?_, fun _ _ _ _ _ => hsig⟩
        · rw [hsig]
          simp only [show (false = true) ↔ False by simp, false_iff]
          rintro ⟨u, hu, hue, -, hua⟩
          rw [huniq u hu hue] at hua
          rw [haf] at hua
          cases hua
        · intro u hu hue hcf
          rw [huniq u hu hue] at hcf
          rw [hc] at hcf
          cases hcf
    · have hcf : compare pw u0.password_hash = false := by
        revert hc
        cases compare pw u0.password_hash <;> simp
      have hsig : signIn db em pw compare =
          { success := false, user := none, error := some "Invalid email or password" } := by
        simp [signIn, hfil, maybeSingle, hcf]
      refine ⟨?_, fun hnex => absurd ⟨u0, hu0, he0⟩ hnex, fun _ _ _ _ => hsig, ?_⟩
      · rw [hsig]
        simp only [show (false = true) ↔ False by simp, false_iff]
        rintro ⟨u, hu, hue, huc, -⟩
        rw [huniq u hu hue] at huc
        rw [hcf] at huc
        cases huc
      · intro u hu hue hct haf
        rw [huniq u hu hue] at hct
        rw [hcf] at hct
        cases hct
  · have hfil : db.users.filter (fun x => x.email == em) = [] :=
      filter_key_nil UserRow.email db.users em
        (fun a ha hae => hex ⟨a, ha, hae⟩)
    have hsig : signIn db em pw compare =
        { success := false, user := none, error := some "Invalid email or password" } := by
      simp [signIn, hfil, maybeSingle]
    refine ⟨?_, fun _ => hsig, fun _ _ _ _ => hsig, ?_⟩
    · rw [hsig]
      simp only [show (false = true) ↔ False by simp, false_iff]
      rintro ⟨u, hu, hue, -⟩
      exact hex ⟨u, hu, hue⟩
    · intro u hu hue _ _
      exact absurd ⟨u, hu, hue⟩ hex

/-- Concrete deactivated user for the C3 witness. -/
def userInactive : UserRow :=
  { id := "u2", email := "bo@example.com", password_hash := "secret",
    first_name := "Bo", last_name := "Ray", role := "user",
    is_active := false, email_verified := true }

/-- Database holding just the deactivated user. -/
def dbInactive : DB := { DB.empty with users := [userInactive] }

/-- Concrete comparison oracle for the C3 witness: the stored hash equals
the password itself. -/
def cmpEq : String → String → Bool := fun p h => p == h

/-- Witness for C3: signing in with the right password to a deactivated
account is refused with the deactivation message. -/
theorem signIn_characterization_witness :
    signIn dbInactive "bo@example.com" "secret" cmpEq =
      { success := false, user := none, error := some "Account is deactivated" } :=
  (signIn_characterization dbInactive "bo@example.com" "secret" cmpEq (by decide)).2.2.2
    userInactive (by decide) rfl (by decide) rfl

/-- Amended-claim statement of the C1 gate for `getActiveSignals`: the
signals are returned exactly when the user has exactly one active
subscription row; otherwise (none, or several, whose multi-row lookup
error the service discards) the call fails with `No active subscription`
and no signals. -/
def getActiveSignalsSpec (db : DB) (uid : String) : SignalsResult :=
  match activeSubsOf db uid with
  | [_] =>
      { success := true,
        signals := some (sortByCreatedDesc
          (db.trading_signals.filter (fun s => s.status == "active"))),
        error := none }
  | _ => { success := false, signals := none, error := some "No active subscription" }

/-- Amended-claim statement of the C1 gate for `getSignalsByType`. -/
def getSignalsByTypeSpec (db : DB) (st uid : String) : SignalsResult :=
  match activeSubsOf db uid with
  | [_] =>
      { success := true,
        signals := some (sortByCreatedDesc (db.trading_signals.filter
          (fun s => s.signal_type == st && s.status == "active"))),
        error := none }
  | _ => { success := false, signals := none, error := some "No active subscription" }

/-- Amended-claim statement of C1 for `checkUserSignalAccess`: access is
granted exactly when the user has exactly one active subscription row and
it is unexpired (a missing `expires_at` counts as the epoch); no active
row refuses with `No active subscription found`, an expired one with
`Subscription has expired`, and several active rows surface the multi-row
lookup error with no access. -/
def checkUserSignalAccessSpec (db : DB) (uid : String) (now : Nat) : AccessResult :=
  match activeSubsOf db uid with
  | [] =>
      { success := false, hasAccess := false,
        message := some "No active subscription found", error := none,
        subscription := none }
  | [s] =>
      if s.expires_at.getD 0 < now then
        { success := false, hasAccess := false,
          message := some "Subscription has expired", error := none,
          subscription := none }
      else
        { success := true, hasAccess := true, message := none, error := none,
          subscription := some s }
  | _ =>
      { success := false, hasAccess := false, message := none,
        error := some "JSON object requested, multiple rows returned",
        subscription := none }

/-- C1 (amended): the three signal-access entry points behave exactly as
the amended claim states, for every database state, user and time. -/
theorem signal_access_amended :
    ∀ (db : DB) (uid st : String) (now : Nat),
      getActiveSignals db (some uid) = getActiveSignalsSpec db uid ∧
      getSignalsByType db st (some uid) = getSignalsByTypeSpec db st uid ∧
      checkUserSignalAccess db uid now = checkUserSignalAccessSpec db uid now := by
  intro db uid st now
  refine ⟨?_, ?_, ?_⟩ <;>
  · rcases hf : activeSubsOf db uid with _ | ⟨a, _ | ⟨b, t⟩⟩ <;>
      simp [getActiveSignals, getSignalsByType, checkUserSignalAccess,
        getActiveSignalsSpec, getSignalsByTypeSpec, checkUserSignalAccessSpec,
        maybeSingle, hf]

/-- First of two simultaneously active subscription rows of one user. -/
def subActiveA : SubscriptionRow :=
  { user_id := "u1", plan_type := "pro", plan_name := "Pro", price := 199,
    period := "month", status := "active", features := [],
    started_at := some 0, expires_at := some 100 }

/-- Second active subscription row of the same user. -/
def subActiveB : SubscriptionRow :=
  { user_id := "u1", plan_type := "starter", plan_name := "Starter",
    price := 99, period := "month", status := "active", features := [],
    started_at := some 0, expires_at := some 100 }

/-- Database in which user `u1` holds two active, unexpired subscriptions. -/
def dbTwoActive : DB := { DB.empty with user_subscriptions := [subActiveA, subActiveB] }

/-- Counterexample to C1 as stated: at time 50 user `u1` has an active
subscription whose `expires_at` is not earlier than the current time, yet
`checkUserSignalAccess` reports `hasAccess = false` — and with neither of
the two messages the claim allows — because its `.maybeSingle()` lookup
fails on the two active rows. -/
theorem checkUserSignalAccess_two_active_denied :
    (∃ s ∈ dbTwoActive.user_subscriptions,
      s.user_id = "u1" ∧ s.status = "active" ∧ 50 ≤ s.expires_at.getD 0) ∧
    (checkUserSignalAccess dbTwoActive "u1" 50).hasAccess = false ∧
    (checkUserSignalAccess dbTwoActive "u1" 50).message = none := by decide

/-- Concrete sign-up input with the unrecognised plan type `gold`. -/
def signUpGoldInput : SignUpData :=
  { firstName := "Ann", lastName := "Lee", email := "ann@example.com",
    password := "pw", plan_type := "gold" }

/-- Counterexample to C9 as stated, on both conjuncts: for the
unrecognised string `toString` every copy of `getPlanDetails` returns the
member inherited from `Object.prototype` through the JavaScript
prototype-chain lookup `plans[planType]`, NOT the Starter plan; and
`signUp` with the unrecognised plan type `gold` FAILS — the subscription
insert violates the schema's `plan_type` CHECK constraint — creating no
subscription row. -/
theorem signUp_unknown_plan_fails :
    purchaseService.getPlanDetails "toString" = PlanLookup.protoMember "toString" ∧
    authService.getPlanDetails "toString" = PlanLookup.protoMember "toString" ∧
    authServiceV2.getPlanDetails "toString" = PlanLookup.protoMember "toString" ∧
    (signUpLegacy DB.empty signUpGoldInput "hash" "123456" "u1" true true true).1.success
      = false ∧
    (signUpLegacy DB.empty signUpGoldInput "hash" "123456" "u1" true true true).2.user_subscriptions
      = [] := by decide

/-- C9 (amended): for a plan type outside the four recognised ones the
copies of `getPlanDetails` return the Starter plan only when the string is
also no `Object.prototype` property name; for a prototype key they return
the inherited member, which is not a plan at all.  In either case `signUp`
with an unrecognised plan type fails — the subscription insert violates
the `user_subscriptions.plan_type` CHECK constraint (for prototype keys
also lacking the NOT NULL plan fields) — and leaves `user_subscriptions`
unchanged (the already inserted user and profile rows remain). -/
theorem getPlanDetails_fallback :
    ∀ pt : String, validPlanType pt = false →
      ((objectPrototypeKeys.contains pt = false →
        purchaseService.getPlanDetails pt = PlanLookup.plan plansStarter ∧
        authService.getPlanDetails pt = PlanLookup.plan plansStarter ∧
        authServiceV2.getPlanDetails pt = PlanLookup.plan plansStarter) ∧
       (objectPrototypeKeys.contains pt = true →
        purchaseService.getPlanDetails pt = PlanLookup.protoMember pt ∧
        authService.getPlanDetails pt = PlanLookup.protoMember pt ∧
        authServiceV2.getPlanDetails pt = PlanLookup.protoMember pt)) ∧
      (∀ (db : DB) (d : SignUpData) (h uq nid : String), d.plan_type = pt →
        (signUpLegacy db d h uq nid true true true).1.success = false ∧
        (signUpLegacy db d h uq nid true true true).2.user_subscriptions =
          db.user_subscriptions) := by
  intro pt hv
  have hfall1 : objectPrototypeKeys.contains pt = false →
      purchaseService.getPlanDetails pt = PlanLookup.plan plansStarter := by
    intro hc
    unfold purchaseService.getPlanDetails
    split
    · exact absurd hv (by decide)
    · exact absurd hv (by decide)
    · exact absurd hv (by decide)
    · exact absurd hv (by decide)
    · rw [hc]
      rfl
  have hfall2 : objectPrototypeKeys.contains pt = true →
      purchaseService.getPlanDetails pt = PlanLookup.protoMember pt := by
    intro hc
    unfold purchaseService.getPlanDetails
    split
    · exact absurd hv (by decide)
    · exact absurd hv (by decide)
    · exact absurd hv (by decide)
    · exact absurd hv (by decide)
    · rw [hc]
      rfl
  refine ⟨⟨fun hc => ⟨hfall1 hc, hfall1 hc, hfall1 hc⟩,
    fun hc => ⟨hfall2 hc, hfall2 hc, hfall2 hc⟩⟩, ?_⟩
  intro db d h uq nid hdpt
  rw [← hdpt] at hv
  rcases hpd : authService.getPlanDetails d.plan_type with p | k <;>
    by_cases hdup : db.users.any (fun u => u.email == d.email) = true <;>
      constructor <;> simp [signUpLegacy, hdup, hv, hpd]

/-- Witness for C9 (amended) at the concrete plan types `gold` (ordinary
unrecognised string, Starter fallback, failing sign-up) and `toString`
(prototype key, inherited member). -/
theorem getPlanDetails_fallback_witness :
    validPlanType "gold" = false ∧
    objectPrototypeKeys.contains "gold" = false ∧
    purchaseService.getPlanDetails "gold" = PlanLookup.plan plansStarter ∧
    validPlanType "toString" = false ∧
    objectPrototypeKeys.contains "toString" = true ∧
    purchaseService.getPlanDetails "toString" = PlanLookup.protoMember "toString" ∧
    (signUpLegacy DB.empty signUpGoldInput "hash" "123456" "u1" true true true).1.success
      = false :=
  ⟨by decide, by decide,
   (((getPlanDetails_fallback "gold" (by decide)).1).1 (by decide)).1,
   by decide, by decide,
   (((getPlanDetails_fallback "toString" (by decide)).1).2 (by decide)).1,
   ((getPlanDetails_fallback "gold" (by decide)).2 DB.empty signUpGoldInput
     "hash" "123456" "u1" rfl).1⟩

/-- Invariant of C7: every active subscription row is explained by an
`activateSubscription` event for its user and plan type in the trace. -/
def PendingUntilActivated (st : DB × List Event) : Prop :=
  ∀ s ∈ st.1.user_subscriptions, s.status = "active" →
    Event.subscriptionActivated s.user_id s.plan_type ∈ st.2

/-- Trace monotonicity: the invariant survives extending the trace. -/
theorem inv_of_subset (db : DB) (tr tr2 : List Event)
    (hsub : ∀ e ∈ tr, e ∈ tr2) :
    PendingUntilActivated (db, tr) → PendingUntilActivated (db, tr2) :=
  fun h s hs ha => hsub _ (h s hs ha)

/-- The invariant only inspects the subscription table, so it transfers
between states whose subscription tables agree. -/
theorem inv_congr_subs (db db2 : DB) (tr : List Event)
    (hsubs : db2.user_subscriptions = db.user_subscriptions) :
    PendingUntilActivated (db, tr) → PendingUntilActivated (db2, tr) :=
  fun h s hs ha => h s (hsubs ▸ hs) ha

/-- Every subscription row present after a legacy `signUp` call was either
already there or is the freshly inserted `pending` row whose plan fields
come from `getPlanDetails` of the requested plan type. -/
theorem signUpLegacy_subs (db : DB) (d : SignUpData) (h uq nid : String)
    (b1 b2 b3 : Bool) :
    ∀ r ∈ (signUpLegacy db d h uq nid b1 b2 b3).2.user_subscriptions,
      r ∈ db.user_subscriptions ∨
      (r.status = "pending" ∧ r.plan_type = d.plan_type ∧
       authService.getPlanDetails d.plan_type =
         PlanLookup.plan { name := r.plan_name, price := r.price,
                           period := r.period, features := r.features }) := by
  intro r hr
  simp only [signUpLegacy] at hr
  split at hr
  · exact Or.inl hr
  · split at hr
    · exact Or.inl hr
    · split at hr
      · exact Or.inl hr
      · rename_i pd heq
        split at hr
        · exact Or.inl hr
        · simp only [List.mem_append, List.mem_singleton] at hr
          rcases hr with hl | rfl
          · exact Or.inl hl
          · exact Or.inr ⟨rfl, rfl, heq⟩

/-- The provider-delegating `signUp` never touches `user_subscriptions`
(it throws before the insert). -/
theorem signUpProvider_subs (db : DB) (d : SignUpData) (aid uq : String)
    (b1 b2 : Bool) :
    (signUpProvider db d aid uq b1 b2).2.user_subscriptions =
      db.user_subscriptions := by
  cases b1 <;> cases b2 <;> rfl

/-- The purchase insert and its trigger never touch `user_subscriptions`. -/
theorem createPurchase_subs (db : DB) (d : CreatePurchaseData) (b : Bool)
    (pid : String) (now : Nat) :
    (createPurchase db d b pid now).2.1.user_subscriptions =
      db.user_subscriptions := by
  cases b <;> rfl

/-- Tracking a signal view never touches `user_subscriptions`. -/
theorem trackSignalView_subs (db : DB) (uid sid : String) (now : Nat)
    (e : Option String) :
    (trackSignalView db uid sid now e).2.user_subscriptions =
      db.user_subscriptions := by
  rcases e with _ | m
  · by_cases hp : db.user_signal_access.any
        (fun r => r.user_id == uid && r.signal_id == sid) = true <;>
      simp [trackSignalView, hp]
  · by_cases hdup : strIncludes m "duplicate" = true <;>
      simp [trackSignalView, hdup]

/-- The UPDATE of `activateSubscription` preserves the invariant: rows it
turns active carry exactly the user and plan type of the recorded
activation event, other rows are untouched. -/
theorem inv_activate (db : DB) (tr : List Event) (uid pt : String)
    (now : Nat) (am : Nat → Nat → Nat) (b : Bool) :
    PendingUntilActivated (db, tr) →
    PendingUntilActivated ((activateSubscription db uid pt now am b).2.1,
      tr ++ (activateSubscription db uid pt now am b).2.2) := by
  intro hinv
  cases b
  · exact inv_of_subset db tr _ (fun e he => List.mem_append.mpr (Or.inl he)) hinv
  · intro s hs ha
    have hs2 : s ∈ db.user_subscriptions.map
        (activateRow uid pt now (if pt == "enterprise" then am now 3 else am now 1)) := hs
    rcases List.mem_map.mp hs2 with ⟨s0, hs0, heq⟩
    by_cases hcond : (s0.user_id == uid && s0.plan_type == pt) = true
    · have hids : s.user_id = uid ∧ s.plan_type = pt := by
        rw [← heq]
        simp only [activateRow, if_pos hcond]
        simp only [Bool.and_eq_true, beq_iff_eq] at hcond
        exact ⟨hcond.1, hcond.2⟩
      refine List.mem_append.mpr (Or.inr ?_)
      rw [hids.1, hids.2]
      exact List.mem_singleton.mpr rfl
    · have hsame : s = s0 := by
        rw [← heq]
        simp [activateRow, hcond]
      rw [hsame]
      exact List.mem_append.mpr (Or.inl (hinv s0 hs0 (hsame ▸ ha)))

/-- Every service call preserves the invariant. -/
theorem inv_applyOp (st : DB × List Event) (op : Op) :
    PendingUntilActivated st → PendingUntilActivated (applyOp st op) := by
  obtain ⟨db, tr⟩ := st
  intro hinv
  cases op with
  | opSignUpLegacy d h uq nid b1 b2 b3 =>
      intro s hs ha
      rcases signUpLegacy_subs db d h uq nid b1 b2 b3 s hs with hold | hnew
      · exact hinv s hold ha
      · exact absurd (hnew.1.symm.trans ha) (by decide)
  | opSignUpProvider d aid uq b1 b2 =>
      exact inv_congr_subs db _ tr (signUpProvider_subs db d aid uq b1 b2) hinv
  | opActivateSubscription uid pt now am b =>
      exact inv_activate db tr uid pt now am b hinv
  | opCreatePurchase d b pid now =>
      exact inv_of_subset _ tr _ (fun e he => List.mem_append.mpr (Or.inl he))
        (inv_congr_subs db _ tr (createPurchase_subs db d b pid now) hinv)
  | opProcessPurchaseAndNotify d b1 b2 pid now am =>
      cases b1
      · exact inv_of_subset db tr _ (fun e he => List.mem_append.mpr (Or.inl he)) hinv
      · have hinv1 : PendingUntilActivated
            ((createPurchase db d.toCreatePurchaseData true pid now).2.1, tr) :=
          inv_congr_subs db _ tr
            (createPurchase_subs db d.toCreatePurchaseData true pid now) hinv
        have hinv2 := inv_activate
          (createPurchase db d.toCreatePurchaseData true pid now).2.1
          tr d.userId d.planType now am b2 hinv1
        refine inv_of_subset _
          (tr ++ (activateSubscription
            (createPurchase db d.toCreatePurchaseData true pid now).2.1
            d.userId d.planType now am b2).2.2) _ ?_ hinv2
        intro e he
        rcases List.mem_append.mp he with hl | hr2
        · exact List.mem_append.mpr (Or.inl hl)
        · exact List.mem_append.mpr (Or.inr (List.mem_append.mpr
            (Or.inl (List.mem_append.mpr (Or.inr hr2)))))
  | opCreateSignal d b sid now =>
      refine inv_congr_subs db _ tr ?_ hinv
      cases b <;> rfl
  | opUpdateSignalStatus sid ns b =>
      refine inv_congr_subs db _ tr ?_ hinv
      cases b <;> rfl
  | opTrackSignalView uid sid now e =>
      exact inv_congr_subs db _ tr (trackSignalView_subs db uid sid now e) hinv

/-- Invariant preservation along any sequence of service calls. -/
theorem inv_applyOps (ops : List Op) :
    ∀ st, PendingUntilActivated st → PendingUntilActivated (applyOps st ops) := by
  induction ops with
  | nil => exact fun st h => h
  | cons op rest ih => exact fun st h => ih (applyOp st op) (inv_applyOp st op h)

/-- C7: every subscription row inserted by either `signUp` variant has
status `pending` with plan name, price, period and features taken from
`getPlanDetails` of the requested plan type (the provider variant inserts
none at all), and in every state reachable from the empty database a row
is `active` only if an `activateSubscription` event for its user and plan
type occurred — never directly from signup. -/
theorem subscriptions_pending_until_activated :
    ∀ ops : List Op,
      (∀ s ∈ (applyOps initState ops).1.user_subscriptions,
        s.status = "active" →
          Event.subscriptionActivated s.user_id s.plan_type ∈ (applyOps initState ops).2) ∧
      (∀ (db : DB) (d : SignUpData) (h uq nid : String) (b1 b2 b3 : Bool),
        ∀ r ∈ (signUpLegacy db d h uq nid b1 b2 b3).2.user_subscriptions,
          r ∈ db.user_subscriptions ∨
          (r.status = "pending" ∧ r.plan_type = d.plan_type ∧
           authService.getPlanDetails d.plan_type =
             PlanLookup.plan { name := r.plan_name, price := r.price,
                               period := r.period, features := r.features })) ∧
      (∀ (db : DB) (d : SignUpData) (aid uq : String) (b1 b2 : Bool),
        (signUpProvider db d aid uq b1 b2).2.user_subscriptions =
          db.user_subscriptions) := by
  intro ops
  refine ⟨?_, signUpLegacy_subs, signUpProvider_subs⟩
  exact inv_applyOps ops initState (fun s hs _ => absurd hs (List.not_mem_nil s))

/-- Concrete sign-up input for the C7 witness. -/
def signUpDataW : SignUpData :=
  { firstName := "Al", lastName := "Kim", email := "al@example.com",
    password := "pw", plan_type := "pro" }

/-- Concrete reachable trace for the C7 witness: a legacy sign-up followed
by an activation. -/
def opsW : List Op :=
  [Op.opSignUpLegacy signUpDataW "h" "654321" "u1" true true true,
   Op.opActivateSubscription "u1" "pro" 10 amWitness true]

/-- Witness for C7: in the concrete trace the activated row is explained
by its activation event. -/
theorem subscriptions_pending_until_activated_witness :
    Event.subscriptionActivated "u1" "pro" ∈ (applyOps initState opsW).2 :=
  (subscriptions_pending_until_activated opsW).1
    { user_id := "u1", plan_type := "pro", plan_name := "Pro", price := 199,
      period := "month", status := "active", features := plansPro.features,
      started_at := some 10, expires_at := some (amWitness 10 1) }
    (by decide) rfl
